import Mathlib

/-!
Verification development for the orhfetch system-fetch tool.

The Rust sources `src/main.rs` and `src/data.rs` are shallowly embedded:
Rust strings become `List Char`, byte buffers become `List Nat`, environment
variables become `Option` values, fallible operations (`Result`, missing
commands, unreadable files) become `Option`/`Except` values.  Each definition
below mirrors the correspondingly named Rust function.
-/

namespace Orhfetch

/-- Rust strings are modelled as lists of characters. -/
abbrev Str := List Char

/-- The character list of a Lean string literal, used to transcribe Rust
string literals. -/
def str (s : String) : Str := s.data

/-- ANSI colour escape, constant `COLOUR` in the source. -/
def colour : Str := str "\x1b[36m"

/-- ANSI reset escape, constant `RESET` in the source. -/
def reset : Str := str "\x1b[0m"

/-- Function `format_data` from `src/main.rs`: `"{COLOUR}{key}{RESET} {value}"`. -/
def formatData (key value : Str) : Str :=
  colour ++ key ++ reset ++ str " " ++ value

/-- Decimal rendering of a number, as Rust `write!`/`format!` does. -/
def natStr (n : Nat) : Str := (Nat.repr n).data

/-- The `display` string built by `format_uptime` (`src/main.rs` lines
122-141; `src/data.rs` lines 17-35 computes the same fields in the same
way).  The three unit fields are transcribed with Rust operator precedence:
in particular the hours field is `(uptime_seconds % 24 * 60 * 60) / (60 *
60)`, i.e. `((uptime_seconds % 24) * 60 * 60) / 3600`. -/
def formatUptimeDisplay (uptimeSeconds : Nat) : Str :=
  let uptimeDays := uptimeSeconds / (24 * 60 * 60)
  let uptimeHours := (uptimeSeconds % 24 * 60 * 60) / (60 * 60)
  let uptimeMinutes := (uptimeSeconds % (60 * 60)) / 60
  (if uptimeDays > 0 then natStr uptimeDays ++ str "d " else [])
    ++ (if uptimeHours > 0 then natStr uptimeHours ++ str "h " else [])
    ++ (if uptimeMinutes > 0 then natStr uptimeMinutes ++ str "m" else [])

/-- Function `format_uptime` from `src/main.rs`: the display string behind the
coloured key prefix.  (The Rust function returns a `Result` only because
`write!` formally can fail; writing into a `String` never does, so the
function is total here.) -/
def formatUptime (uptimeSeconds : Nat) : Str :=
  formatData [] (formatUptimeDisplay uptimeSeconds)

/-- Rust `str::strip_prefix`: the remainder of `s` after the prefix `p`,
when `p` is a prefix of `s`. -/
def dropPre (p s : Str) : Option Str :=
  if p.isPrefixOf s then some (s.drop p.length) else none

/-- Rust `str::split_once`: the parts of `s` before and after the first
occurrence of `c`, if any. -/
def splitOnce (c : Char) : Str → Option (Str × Str)
  | [] => none
  | x :: xs =>
    if x = c then some ([], xs)
    else (splitOnce c xs).map fun pq => (x :: pq.1, pq.2)

/-- Rust `[String]::join`: the pieces interleaved with the separator. -/
def joinSep (sep : Str) : List Str → Str
  | [] => []
  | [x] => x
  | x :: y :: xs => x ++ sep ++ joinSep sep (y :: xs)

/-- A UTF-8 continuation byte. -/
def isCont (b : Nat) : Bool := 0x80 ≤ b && b < 0xC0

/-- Strict UTF-8 decoding (RFC 3629, as Rust `str::from_utf8` validates),
driven by a fuel argument so that the recursion is structural; each decoded
scalar consumes at least one input byte, so fuel `= length` suffices. -/
def utf8DecodeF : Nat → List Nat → Option Str
  | _, [] => some []
  | 0, _ :: _ => none
  | fuel + 1, b :: bs =>
    if b < 0x80 then
      (utf8DecodeF fuel bs).map (Char.ofNat b :: ·)
    else if 0xC2 ≤ b ∧ b ≤ 0xDF then
      match bs with
      | b1 :: bs1 =>
        if isCont b1 then
          (utf8DecodeF fuel bs1).map
            (Char.ofNat ((b - 0xC0) * 64 + (b1 - 0x80)) :: ·)
        else none
      | [] => none
    else if 0xE0 ≤ b ∧ b ≤ 0xEF then
      match bs with
      | b1 :: b2 :: bs2 =>
        if isCont b1 && isCont b2 && (b ≠ 0xE0 || 0xA0 ≤ b1) &&
            (b ≠ 0xED || b1 < 0xA0) then
          (utf8DecodeF fuel bs2).map
            (Char.ofNat ((b - 0xE0) * 4096 + (b1 - 0x80) * 64 + (b2 - 0x80)) :: ·)
        else none
      | _ => none
    else if 0xF0 ≤ b ∧ b ≤ 0xF4 then
      match bs with
      | b1 :: b2 :: b3 :: bs3 =>
        if isCont b1 && isCont b2 && isCont b3 && (b ≠ 0xF0 || 0x90 ≤ b1) &&
            (b ≠ 0xF4 || b1 < 0x90) then
          (utf8DecodeF fuel bs3).map
            (Char.ofNat ((b - 0xF0) * 262144 + (b1 - 0x80) * 4096 +
              (b2 - 0x80) * 64 + (b3 - 0x80)) :: ·)
        else none
      | _ => none
    else none

/-- Rust `str::from_utf8` on a byte buffer: the decoded character list when
the buffer is valid UTF-8, `none` otherwise. -/
def utf8Decode (bs : List Nat) : Option Str := utf8DecodeF bs.length bs

/-- The newline character, `\n` in the Rust sources. -/
def nlChar : Char := Char.ofNat 10

/-- The double-quote character, `"` in the Rust sources. -/
def quoteChar : Char := Char.ofNat 34

/-- Line `"{COLOUR}{user}{RESET}@{COLOUR}{host}{RESET}"` built by
`get_hostname`. -/
def hostLine (user host : Str) : Str :=
  colour ++ user ++ reset ++ str "@" ++ colour ++ host ++ reset

/-- Function `get_hostname` (`src/main.rs` lines 40-54).  Inputs: the `USER` and
`HOSTNAME` environment variables, the outcome of running the external
`hostname` command (`Except.error` when spawning it fails, otherwise its
stdout bytes), and the kernel node name from `uname`.  The `?` on
`std::env::var("USER")` and on `Command::output()` propagate failure;
invalid UTF-8 from the command falls back to the node name. -/
def getHostname (userVar hostnameVar : Option Str)
    (hostnameCmd : Except Unit (List Nat)) (nodename : Str) : Option Str :=
  match userVar with
  | none => none
  | some user =>
    match hostnameVar with
    | some name => some (hostLine user name)
    | none =>
      match hostnameCmd with
      | .error _ => none
      | .ok bytes =>
        match utf8Decode bytes with
        | some name => some (hostLine user (name.filter (· ≠ nlChar)))
        | none => some (hostLine user nodename)

/-- Function `get_shell` (`src/main.rs` lines 113-120): strip the prefix `"/bin/"`
from the `SHELL` environment variable and put the remainder behind the
coloured key. -/
def getShell (shellVar : Option Str) : Option Str :=
  match shellVar with
  | none => none
  | some s =>
    match dropPre (str "/bin/") s with
    | none => none
    | some rest => some (formatData [] rest)

/-- One swatch glyph of `get_colours`: `format!("\x1b[{}m⬣", i)`. -/
def colourGlyph (i : Nat) : Str := str "\x1b[" ++ natStr i ++ str "m⬣"

/-- Function `get_colours` (`src/main.rs` lines 143-157): the normal-intensity row
for codes `30..38` joined by spaces, and the bright row for codes `90..98`
behind one extra leading space. -/
def getColours : Str × Str :=
  (joinSep (str " ") ((List.range' 30 8).map colourGlyph),
    str " " ++ joinSep (str " ") ((List.range' 90 8).map colourGlyph))

/-- The nickname table inside `read_mac_release` in `src/main.rs`: match on
the product-version part before the first `.`. -/
def macNickname (version : Str) : Option Str :=
  (splitOnce (Char.ofNat 46) version).map fun pr =>
    if pr.1 = str "11" then str "Big Sur"
    else if pr.1 = str "12" then str "Monterey"
    else []

/-- The nickname table inside `read_mac_release` in `src/data.rs`, which
additionally maps `13` to `Ventura`. -/
def macNicknameData (version : Str) : Option Str :=
  (splitOnce (Char.ofNat 46) version).map fun pr =>
    if pr.1 = str "11" then str "Big Sur"
    else if pr.1 = str "12" then str "Monterey"
    else if pr.1 = str "13" then str "Ventura"
    else []

/-- Function `read_mac_release` (`src/main.rs` lines 57-81): decode the stdout of
`sw_vers -productName` and `sw_vers -productVersion` (both the command
failure and invalid UTF-8 propagate through `?`), strip newlines from the
name, and append the nickname of the version prefix. -/
def readMacRelease (swName swVersion : Except Unit (List Nat)) : Option Str :=
  match swName with
  | .error _ => none
  | .ok nameBytes =>
    match utf8Decode nameBytes with
    | none => none
    | some name =>
      match swVersion with
      | .error _ => none
      | .ok verBytes =>
        match utf8Decode verBytes with
        | none => none
        | some ver =>
          (macNickname ver).map fun nick =>
            (name.filter (· ≠ nlChar)) ++ str " " ++ nick

/-- Function `read_lsb_release` (`src/main.rs` lines 83-91): the decoded stdout of
`lsb_release -sd`. -/
def readLsbRelease (lsbRelease : Except Unit (List Nat)) : Option Str :=
  match lsbRelease with
  | .error _ => none
  | .ok bytes => utf8Decode bytes

/-- The line filter of `read_os_release`: `s.starts_with("PRETTY_NAME")`. -/
def osReleaseLine (l : Str) : Bool := (str "PRETTY_NAME").isPrefixOf l

/-- The parsing part of `read_os_release` (`src/main.rs` lines 93-101),
applied to the content of `/etc/os_release`: split into lines, take the
first line starting with `PRETTY_NAME`, strip the `PRETTY_NAME=` prefix
(an error if the found line does not carry it) and delete every `"`. -/
def readOsRelease (content : Str) : Option Str :=
  (((content.splitOn nlChar).find? osReleaseLine).bind
    (dropPre (str "PRETTY_NAME="))).map (List.filter (· ≠ quoteChar))

/-- Function `get_os` (`src/main.rs` lines 56-111): branch on the uname kernel name;
Darwin uses `read_mac_release`, Linux uses `read_lsb_release` falling back
to `read_os_release` on the file content (reading the file itself can fail,
modelled by the `Except`), anything else is an error. -/
def getOs (sysname : Str) (swName swVersion lsbRelease : Except Unit (List Nat))
    (osReleaseFile : Except Unit Str) : Option Str :=
  if sysname = str "Darwin" then
    (readMacRelease swName swVersion).map (formatData [])
  else if sysname = str "Linux" then
    ((readLsbRelease lsbRelease).orElse
      (fun _ => osReleaseFile.toOption.bind readOsRelease)).map (formatData [])
  else none

/-- One hexadecimal digit, as `u8::from_str_radix(_, 16)` accepts. -/
def hexDigitVal (c : Char) : Option Nat :=
  if 48 ≤ c.toNat ∧ c.toNat ≤ 57 then some (c.toNat - 48)
  else if 97 ≤ c.toNat ∧ c.toNat ≤ 102 then some (c.toNat - 87)
  else if 65 ≤ c.toNat ∧ c.toNat ≤ 70 then some (c.toNat - 55)
  else none

/-- Rust `u8::from_str_radix(s, 16)`: an optional leading `+`, then at
least one hexadecimal digit, overflow above 255 an error. -/
def hexByte (s : String) : Option Nat :=
  let ds := match s.data with
    | c :: cs => if c = Char.ofNat 43 then cs else c :: cs
    | [] => []
  match ds with
  | [] => none
  | _ =>
    ds.foldlM (fun acc c =>
      (hexDigitVal c).bind fun d =>
        let v := acc * 16 + d
        if v < 256 then some v else none) 0

/-- The byte table of `get_ascii_art` (`src/main.rs` lines 14-24),
transcribed entry by entry. -/
def asciiArtBytes : List String :=
  ["20", "20", "20", "20", "20", "20", "20", "20", "5f", "20", "20", "20",
   "20", "20", "20", "20", "20", "20", "0a", "20", "20", "20", "20", "5f",
   "20", "28", "60", "2d", "60", "29", "20", "5f", "20", "20", "20", "20",
   "20", "0a", "20", "20", "2f", "60", "20", "27", "2e", "5c", "20", "2f",
   "2e", "27", "20", "60", "5c", "20", "20", "20", "0a", "20", "20", "60",
   "60", "27", "2d", "2e", "2c", "3d", "2c", "2e", "2d", "27", "60", "60",
   "20", "20", "20", "0a", "20", "20", "20", "20", "2e", "27", "2f", "2f",
   "76", "5c", "5c", "27", "2e", "20", "20", "20", "20", "20", "0a", "20",
   "20", "20", "28", "5f", "2f", "5c", "20", "22", "20", "2f", "5c", "5f",
   "29", "20", "20", "20", "20", "0a", "20", "20", "20", "20", "20", "20",
   "20", "27", "2d", "27", "20", "20", "20", "20", "20", "20", "20"]

/-- Function `get_ascii_art` (`src/main.rs` lines 13-38): split the table on the
`"0a"` entries, hex-decode each segment to bytes and decode those as UTF-8;
either `expect` panicking is modelled by `none`. -/
def getAsciiArt : Option (List Str) :=
  (asciiArtBytes.splitOn "0a").mapM fun seg =>
    (seg.mapM hexByte).bind utf8Decode

/-- The banner actually used by `main` (where `get_ascii_art` would have
panicked rather than return). -/
def artLines : List Str := getAsciiArt.getD []

/-- The ambient inputs of one program run: environment variables, external
command outcomes, the OS-release file and the uptime reading. -/
structure Env where
  userVar : Option Str
  hostnameVar : Option Str
  hostnameCmd : Except Unit (List Nat)
  nodename : Str
  sysname : Str
  swName : Except Unit (List Nat)
  swVersion : Except Unit (List Nat)
  lsbRelease : Except Unit (List Nat)
  osReleaseFile : Except Unit Str
  shellVar : Option Str
  uptime : Except Unit Nat

/-- The `data_list` built by `main` (`src/main.rs` lines 160-189): each
lookup result is pushed when it succeeds, then both colour rows are always
pushed.  (`format_uptime` itself never fails, see `formatUptime`.) -/
def mainDataList (env : Env) : List Str :=
  let l0 : List Str := []
  let l1 := match getHostname env.userVar env.hostnameVar env.hostnameCmd
      env.nodename with
    | some value => l0 ++ [value]
    | none => l0
  let l2 := match getOs env.sysname env.swName env.swVersion env.lsbRelease
      env.osReleaseFile with
    | some value => l1 ++ [value]
    | none => l1
  let l3 := match getShell env.shellVar with
    | some value => l2 ++ [value]
    | none => l2
  let l4 := match env.uptime with
    | .ok t => l3 ++ [formatUptime t]
    | .error _ => l3
  l4 ++ [getColours.1, getColours.2]

/-- Function `print_left_to_right` (`src/main.rs` lines 192-206): for each index
below the longer length, print the left entry when present, then the right
entry when present, then a newline; so line `i` of stdout is the
concatenation of the two entries at `i`. -/
def printLeftToRight (left right : List Str) : List Str :=
  (List.range (max left.length right.length)).map fun i =>
    left.getD i [] ++ right.getD i []

/-- The lines `main` writes to stdout: the banner beside the data list. -/
def mainStdout (env : Env) : List Str :=
  printLeftToRight artLines (mainDataList env)

/-- The seven banner lines the byte table decodes to. -/
def artLinesVal : List Str :=
  [str "        _         ",
   str "    _ (`-`) _     ",
   str "  /` \x27.\\ /.\x27 `\\   ",
   str "  ``\x27-.,=,.-\x27``   ",
   str "    .\x27//v\\\\\x27.     ",
   str "   (_/\\ \" /\\_)    ",
   str "       \x27-\x27       "]

/-- A run in which every fact lookup fails: no environment variables, no
runnable external commands, an unknown kernel name, no uptime reading. -/
def envEmpty : Env where
  userVar := none
  hostnameVar := none
  hostnameCmd := .error ()
  nodename := []
  sysname := str "Plan9"
  swName := .error ()
  swVersion := .error ()
  lsbRelease := .error ()
  osReleaseFile := .error ()
  shellVar := none
  uptime := .error ()

/-- Decoding the ASCII-art byte table succeeds and yields exactly the seven
banner lines. -/
theorem getAsciiArt_eq : getAsciiArt = some artLinesVal := by decide

/-- The banner used by `main` is those seven lines. -/
theorem artLines_eq : artLines = artLinesVal := by
  simp [artLines, getAsciiArt_eq]

/-- Driver `main` pushes at most four optional facts and the two colour rows. -/
theorem mainDataList_length_le (env : Env) : (mainDataList env).length ≤ 6 := by
  unfold mainDataList
  cases getHostname env.userVar env.hostnameVar env.hostnameCmd env.nodename <;>
    cases getOs env.sysname env.swName env.swVersion env.lsbRelease
      env.osReleaseFile <;>
    cases getShell env.shellVar <;>
    cases env.uptime <;>
    simp

/-- Claim C1: the spec expects `format_uptime` of 90061 seconds to render
`"1d 1h 1m"`, but the code renders `"1d 13h 1m"`: by operator precedence the
hours expression `uptime_seconds % 24 * 60 * 60 / (60 * 60)` evaluates to
`uptime_seconds % 24 = 13` instead of the intended hours-of-day `1`. -/
theorem c1_format_uptime_90061 :
    formatUptimeDisplay 90061 = str "1d 13h 1m" ∧
      formatUptimeDisplay 90061 ≠ str "1d 1h 1m" := by
  constructor
  · decide
  · decide

/-- Claim C2: the spec expects `format_uptime` of 59 seconds to have all
unit fields zero and an empty display string, but the code computes the
hours field as `59 % 24 = 11` and renders `"11h "`. -/
theorem c2_format_uptime_59 :
    formatUptimeDisplay 59 = str "11h " ∧ formatUptimeDisplay 59 ≠ [] := by
  constructor
  · decide
  · decide

/-- Claim C3 (counterexample): the claim says `get_hostname` succeeds in
every environment where `USER` is set; but with `USER` set, `HOSTNAME`
unset and the external `hostname` command failing to run, the `?` on
`Command::output()` propagates the error. -/
theorem c3_counterexample :
    getHostname (some (str "orhid")) none (.error ()) (str "node") = none := by
  decide

/-- Claim C3 (amended): `get_hostname` succeeds exactly when `USER` is set
and either `HOSTNAME` is set or the external `hostname` command runs; the
kernel node name is only the fallback for command output that is not valid
UTF-8. -/
theorem c3_get_hostname_errors :
    (∀ (u hv : Option Str) (cmd : Except Unit (List Nat)) (nn : Str),
      (getHostname u hv cmd nn).isSome = (u.isSome && (hv.isSome || cmd.isOk))) ∧
    (∀ (user nn : Str) (bytes : List Nat), utf8Decode bytes = none →
      getHostname (some user) none (.ok bytes) nn = some (hostLine user nn)) := by
  constructor
  · intro u hv cmd nn
    cases u <;> cases hv <;> cases cmd <;>
      simp [getHostname, Except.isOk, Except.toBool]
    case none.ok bytes =>
      cases h : utf8Decode bytes <;> simp [h]
  · intro user nn bytes h
    simp [getHostname, h]

/-- Claim C3 witness: both parts applied at concrete inputs. -/
theorem c3_witness :
    (getHostname (some (str "u")) (some (str "h")) (.error ())
        (str "n")).isSome =
      ((some (str "u")).isSome &&
        ((some (str "h")).isSome || (Except.error () : Except Unit (List Nat)).isOk)) ∧
    getHostname (some (str "u")) none (.ok [255]) (str "nn") =
      some (hostLine (str "u") (str "nn")) :=
  ⟨c3_get_hostname_errors.1 (some (str "u")) (some (str "h")) (.error ())
      (str "n"),
    c3_get_hostname_errors.2 (str "u") (str "nn") [255] (by decide)⟩

/-- Claim C4 (counterexample): in a run where every lookup fails, the data
list has 2 entries (the colour rows) but stdout has 7 lines — one per
banner row, not one per resolved fact — and the final line is the last
banner row, not a blank line. -/
theorem c4_counterexample :
    (mainDataList envEmpty).length = 2 ∧
    (mainStdout envEmpty).length = 7 ∧
    (mainStdout envEmpty).getLast? = some (str "       \x27-\x27       ") := by
  refine ⟨by decide, by decide, by decide⟩

/-- Claim C4 (amended): stdout always has exactly 7 lines (the banner is
longer than any possible data list); line `i` is banner line `i` followed
by the `i`-th resolved fact when there is one; the final line is the last
banner row, so the output does not end in a blank line. -/
theorem c4_stdout_lines (env : Env) :
    (mainStdout env).length = 7 ∧
    (∀ i : Nat, (mainStdout env)[i]? =
      if i < 7 then some (artLines.getD i [] ++ (mainDataList env).getD i [])
      else none) ∧
    (mainStdout env).getLast? = some (str "       \x27-\x27       ") := by
  have hart : artLines.length = 7 := by rw [artLines_eq]; rfl
  have hdata : (mainDataList env).length ≤ 6 := mainDataList_length_le env
  have hmax : max artLines.length (mainDataList env).length = 7 := by omega
  have hlen : (mainStdout env).length = 7 := by
    simp [mainStdout, printLeftToRight, hmax]
  have hget : ∀ i : Nat, (mainStdout env)[i]? =
      if i < 7 then some (artLines.getD i [] ++ (mainDataList env).getD i [])
      else none := by
    intro i
    by_cases hi : i < 7
    · simp [mainStdout, printLeftToRight, hmax, List.getElem?_map,
        List.getElem?_range, hi]
    · rw [List.getElem?_eq_none (by omega), if_neg hi]
  refine ⟨hlen, hget, ?_⟩
  rw [List.getLast?_eq_getElem?, hlen]
  rw [hget 6, if_pos (by omega)]
  rw [List.getD_eq_default (mainDataList env) [] (by omega), artLines_eq]
  rfl

/-- Claim C4 witness: the amended statement applied to the all-failures run
and to line 0. -/
theorem c4_witness :
    (mainStdout envEmpty).length = 7 ∧
    ((mainStdout envEmpty)[0]? =
      if 0 < 7 then
        some (artLines.getD 0 [] ++ (mainDataList envEmpty).getD 0 [])
      else none) ∧
    (mainStdout envEmpty).getLast? = some (str "       \x27-\x27       ") :=
  ⟨(c4_stdout_lines envEmpty).1, (c4_stdout_lines envEmpty).2.1 0,
    (c4_stdout_lines envEmpty).2.2⟩

/-- Claim C5: `read_mac_release` maps the part of the product-version
string before the first `.` through the nickname table: `12.6` gives
`Monterey` (in both `src/main.rs` and `src/data.rs`), and any dotted
version whose prefix is outside the table gives the empty nickname rather
than an error. -/
theorem c5_mac_nickname :
    macNickname (str "12.6") = some (str "Monterey") ∧
    macNicknameData (str "12.6") = some (str "Monterey") ∧
    ∀ v p r : Str, splitOnce (Char.ofNat 46) v = some (p, r) →
      p ≠ str "11" → p ≠ str "12" → p ≠ str "13" →
      macNickname v = some [] ∧ macNicknameData v = some [] := by
  refine ⟨by decide, by decide, ?_⟩
  intro v p r h h11 h12 h13
  constructor <;> simp [macNickname, macNicknameData, h, h11, h12, h13]

/-- Claim C5 witness: version `14.0` yields the empty nickname in both
tables. -/
theorem c5_witness :
    macNickname (str "14.0") = some [] ∧ macNicknameData (str "14.0") = some [] :=
  c5_mac_nickname.2.2 (str "14.0") (str "14") (str "0") (by decide)
    (by decide) (by decide) (by decide)

/-- Claim C6: `get_shell` on `SHELL=/bin/zsh` yields the line for `zsh`, on
`SHELL=/usr/bin/zsh` fails, and in general it fails exactly when `SHELL` is
unset or its value does not start with `/bin/`. -/
theorem c6_get_shell :
    getShell (some (str "/bin/zsh")) = some (formatData [] (str "zsh")) ∧
    getShell (some (str "/usr/bin/zsh")) = none ∧
    ∀ v : Option Str, getShell v = none ↔
      (v = none ∨ ∃ s, v = some s ∧ (str "/bin/").isPrefixOf s = false) := by
  refine ⟨by decide, by decide, ?_⟩
  intro v
  cases v with
  | none => simp [getShell]
  | some s =>
    cases hp : (str "/bin/").isPrefixOf s <;> simp [getShell, dropPre, hp]

/-- Claim C6 witness: the shell line for `SHELL=/bin/zsh`, via the first
part of the claim theorem. -/
theorem c6_witness :
    getShell (some (str "/bin/zsh")) = some (formatData [] (str "zsh")) :=
  c6_get_shell.1

/-- Claim C7: the first colour row is exactly the eight glyphs for ANSI
codes 30-37 joined by single spaces, and the second row is the eight glyphs
for codes 90-97 behind a single leading space. -/
theorem c7_get_colours :
    getColours.1 =
      str "\x1b[30m⬣ \x1b[31m⬣ \x1b[32m⬣ \x1b[33m⬣ \x1b[34m⬣ \x1b[35m⬣ \x1b[36m⬣ \x1b[37m⬣" ∧
    getColours.2 =
      str " \x1b[90m⬣ \x1b[91m⬣ \x1b[92m⬣ \x1b[93m⬣ \x1b[94m⬣ \x1b[95m⬣ \x1b[96m⬣ \x1b[97m⬣" := by
  refine ⟨by decide, by decide⟩

/-- Claim C8 (counterexample): a content that does contain the line
`PRETTY_NAME="Test OS 1.0"` but whose first line merely starts with
`PRETTY_NAME` (here `PRETTY_NAMES=x`) makes `read_os_release` fail instead
of extracting `Test OS 1.0`: `find` returns the first matching line and
`strip_prefix("PRETTY_NAME=")` then fails on it. -/
theorem c8_counterexample :
    str "PRETTY_NAME=\"Test OS 1.0\"" ∈
      (str "PRETTY_NAMES=x\nPRETTY_NAME=\"Test OS 1.0\"").splitOn nlChar ∧
    readOsRelease (str "PRETTY_NAMES=x\nPRETTY_NAME=\"Test OS 1.0\"") = none := by
  refine ⟨by decide, by decide⟩

/-- Claim C8 (amended): when the *first* line starting with `PRETTY_NAME`
is exactly `PRETTY_NAME="Test OS 1.0"`, `read_os_release` extracts
`Test OS 1.0` with the quotes stripped; and when no line starts with
`PRETTY_NAME` it returns an error. -/
theorem c8_read_os_release (content : Str) :
    ((content.splitOn nlChar).find? osReleaseLine =
        some (str "PRETTY_NAME=\"Test OS 1.0\"") →
      readOsRelease content = some (str "Test OS 1.0")) ∧
    ((content.splitOn nlChar).find? osReleaseLine = none →
      readOsRelease content = none) := by
  constructor
  · intro h
    unfold readOsRelease
    rw [h]
    decide
  · intro h
    unfold readOsRelease
    rw [h]
    rfl

/-- Claim C8 witness: on the one-line content the hypothesis holds and the
value is extracted. -/
theorem c8_witness :
    readOsRelease (str "PRETTY_NAME=\"Test OS 1.0\"") = some (str "Test OS 1.0") :=
  (c8_read_os_release (str "PRETTY_NAME=\"Test OS 1.0\"")).1 (by decide)

/-- Claim C9: the data list is always, in this order, the successful ones
among hostname, OS, shell and uptime, followed by both colour rows — each
failed lookup omits exactly its own entry and the run always produces
output — and each data entry lands on its own stdout line, appended to the
banner line of the same index. -/
theorem c9_driver_order (env : Env) :
    mainDataList env =
      ([getHostname env.userVar env.hostnameVar env.hostnameCmd env.nodename,
        getOs env.sysname env.swName env.swVersion env.lsbRelease
          env.osReleaseFile,
        getShell env.shellVar,
        env.uptime.toOption.map formatUptime].filterMap id)
        ++ [getColours.1, getColours.2] ∧
    ∀ i : Nat, i < (mainDataList env).length →
      (mainStdout env)[i]? =
        some (artLines.getD i [] ++ (mainDataList env).getD i []) := by
  have hart : artLines.length = 7 := by rw [artLines_eq]; rfl
  have hdata : (mainDataList env).length ≤ 6 := mainDataList_length_le env
  have hmax : max artLines.length (mainDataList env).length = 7 := by omega
  constructor
  · unfold mainDataList
    cases getHostname env.userVar env.hostnameVar env.hostnameCmd
        env.nodename <;>
      cases getOs env.sysname env.swName env.swVersion env.lsbRelease
        env.osReleaseFile <;>
      cases getShell env.shellVar <;>
      cases h4 : env.uptime <;>
      simp [Except.toOption, h4]
  · intro i hi
    have hi7 : i < 7 := by omega
    simp [mainStdout, printLeftToRight, hmax, List.getElem?_map,
      List.getElem?_range, hi7]

/-- Claim C9 witness: in the all-failures run the data list is nonempty
(the colour rows are always present) and its first entry sits on stdout
line 0 behind banner line 0. -/
theorem c9_witness :
    0 < (mainDataList envEmpty).length ∧
    (mainStdout envEmpty)[0]? =
      some (artLines.getD 0 [] ++ (mainDataList envEmpty).getD 0 []) :=
  ⟨by decide, (c9_driver_order envEmpty).2 0 (by decide)⟩

/-- Claim C10: `get_ascii_art` is total: every entry of the byte table is a
two-character valid hexadecimal byte, the table holds exactly six `"0a"`
separators, and decoding succeeds (neither `expect` can panic) yielding
exactly 7 banner lines. -/
theorem c10_ascii_art_total :
    (asciiArtBytes.all fun s => s.length = 2 && (hexByte s).isSome) = true ∧
    asciiArtBytes.count "0a" = 6 ∧
    getAsciiArt = some artLinesVal ∧
    artLinesVal.length = 7 := by
  refine ⟨by decide, by decide, getAsciiArt_eq, by decide⟩

end Orhfetch
